import Mathlib

/-!
Verification of the training/evaluation harness in `ec2train.py`
(Inventory-Monitoring-at-Distribution-Centers).

The script's numeric and control-flow behaviour is embedded shallowly:

* A batch is abstracted by the three scalars the loop actually reads from it:
  the scalar loss value returned by the criterion (`loss.item()`), the batch
  size (`inputs.size(0)`) and the number of correct predictions
  (`torch.sum(preds == labels.data)`).  Losses are modelled as exact
  rationals.
* A data feeder (`DataLoader`) is a finite list of batches; `len(loader)`
  is the number of batches, exactly as in the source.
* The epoch loop of `train` (lines 29-77) is a fold over per-epoch observed
  batch data with explicit state (`best_loss`, `loss_counter`) and the two
  `break` statements; the per-batch `log.record` and `logger.info` calls
  only write to the log and are omitted from the numeric state.
* `train` itself (line 23) first evaluates `Report(epochs)` (line 27), so it
  is modelled with Python name resolution over the module's bindings.
* `net`, `create_data_loaders` and the `argparse` defaults are embedded as
  the symbolic configuration they construct.
-/

namespace Ec2Train

/-- One batch as observed by the loops of `ec2train.py`: the scalar loss the
criterion returns on it, its size `inputs.size(0)`, and the number of
predictions (`torch.max(outputs, 1)` argmaxes) equal to the labels. -/
structure Batch where
  loss : ℚ
  size : ℕ
  corrects : ℕ
  deriving Repr, DecidableEq

/-- Accumulator `running_loss` of a phase: `running_loss += loss.item() *
inputs.size(0)` (line 52 / line 90). -/
def running_loss (feeder : List Batch) : ℚ :=
  feeder.foldl (fun acc b => acc + b.loss * (b.size : ℚ)) 0

/-- Accumulator `running_corrects` of a phase: `running_corrects +=
torch.sum(preds == labels.data)` (line 53 / line 91). -/
def running_corrects (feeder : List Batch) : ℕ :=
  feeder.foldl (fun acc b => acc + b.corrects) 0

/-- Number of samples in a feeder (sum of batch sizes).  The source never
divides by this; it is defined only to state that the divisor is the batch
count and not the sample count. -/
def num_samples (feeder : List Batch) : ℕ :=
  feeder.foldl (fun acc b => acc + b.size) 0

/-- Phase metric `epoch_loss = running_loss / len(image_dataset[phase])` (line 55):
the divisor is the number of batches of the phase's loader. -/
def epoch_loss (feeder : List Batch) : ℚ :=
  running_loss feeder / (feeder.length : ℚ)

/-- Phase metric `epoch_acc = running_corrects / len(image_dataset[phase])` (line 56). -/
def epoch_acc (feeder : List Batch) : ℚ :=
  (running_corrects feeder : ℚ) / (feeder.length : ℚ)

/-- The two metrics `test` reports (lines 93-94):
`total_loss = running_loss / len(test_loader)` and
`total_acc = running_corrects.double() / len(test_loader)`. -/
def test (test_loader : List Batch) : ℚ × ℚ :=
  (running_loss test_loader / (test_loader.length : ℚ),
   (running_corrects test_loader : ℚ) / (test_loader.length : ℚ))

/-- The batch data one epoch of `train` observes: the batches yielded by
`image_dataset['train']` and by `image_dataset['valid']` during that epoch
(the losses depend on the current parameters, hence vary with the epoch). -/
structure EpochData where
  trainBatches : List Batch
  validBatches : List Batch

/-- The mutable scalars of the epoch loop: `best_loss` (line 24) and
`loss_counter` (line 26). -/
structure LoopState where
  best_loss : ℚ
  loss_counter : ℕ
  deriving Repr, DecidableEq

/-- Initial state of the loop: `best_loss=1e6` (line 24), `loss_counter=0`
(line 26). -/
def initState : LoopState :=
  { best_loss := 1e6, loss_counter := 0 }

/-- The `phase=='valid'` update of lines 58-62: if the validation epoch loss
beats `best_loss` strictly, record it; otherwise increment `loss_counter`. -/
def validUpdate (s : LoopState) (vloss : ℚ) : LoopState :=
  if vloss < s.best_loss then { s with best_loss := vloss }
  else { s with loss_counter := s.loss_counter + 1 }

/-- The `for epoch in range(epochs)` loop of lines 29-76, unrolled on the
number of remaining iterations.  `epoch` is the current index, `remaining`
the iterations `range(epochs)` still holds.  Each iteration runs the train
phase (whose metrics are computed but drive no control flow), then the valid
phase whose `epoch_loss` feeds `validUpdate`; after the phases,
`if loss_counter==1: break` (line 73) then `if epoch==0: break` (line 75).
Returns the final state and the number of epochs executed. -/
def trainLoopAux (data : ℕ → EpochData) : ℕ → ℕ → LoopState → LoopState × ℕ
  | _, 0, s => (s, 0)
  | epoch, r + 1, s =>
    let vloss := epoch_loss (data epoch).validBatches
    let s' := validUpdate s vloss
    if s'.loss_counter = 1 then (s', 1)
    else if epoch = 0 then (s', 1)
    else
      let rest := trainLoopAux data (epoch + 1) r s'
      (rest.1, rest.2 + 1)

/-- The whole epoch loop of `train`, started at epoch 0 with the initial
state. -/
def trainLoop (epochs : ℕ) (data : ℕ → EpochData) : LoopState × ℕ :=
  trainLoopAux data 0 epochs initState

/-! ### Python name resolution for the body of `train` -/

/-- A Python runtime error, as far as this file needs one. -/
inductive PyError where
  | nameError (name : String)
  | keyError (key : String)
  deriving Repr, DecidableEq

/-- The names bound at module level in `ec2train.py`: the imports of lines
1-15 and the top-level assignments/definitions. -/
def module_level_names : List String :=
  ["np", "torch", "nn", "optim", "torchvision", "models", "transforms",
   "copy", "argparse", "os", "logging", "sys", "tqdm", "ImageFile",
   "logger", "train", "test", "net", "create_data_loaders", "main"]

/-- The local names of `train` in scope when line 27 executes: the seven
parameters and the assignments of lines 24-26. -/
def train_local_names : List String :=
  ["model", "train_loader", "validation_loader", "criterion", "optimizer",
   "epochs", "device", "best_loss", "image_dataset", "loss_counter"]

/-- The Python builtins the script touches (none of them is `Report`). -/
def python_builtin_names : List String :=
  ["range", "len", "enumerate", "print", "format", "max", "sum"]

/-- Every name resolvable inside the body of `train`. -/
def train_scope : List String :=
  train_local_names ++ module_level_names ++ python_builtin_names

/-- Function `train` (lines 23-77): after the assignments of lines 24-26, line 27
evaluates `Report(epochs)`.  If the name `Report` resolves, the epoch loop
runs; otherwise Python raises `NameError` before the loop is reached. -/
def train (epochs : ℕ) (data : ℕ → EpochData) :
    Except PyError (LoopState × ℕ) :=
  if train_scope.contains "Report" then .ok (trainLoop epochs data)
  else .error (.nameError "Report")

/-! ### Data loaders (`create_data_loaders`, lines 115-142) -/

/-- A torchvision transform as composed in lines 120-131. -/
inductive Transform where
  | randomResizedCrop (h w : ℕ)
  | randomHorizontalFlip (p : ℚ)
  | randomGrayscale (p : ℚ)
  | randomApplyColorJitter (brightness contrast saturation hue : ℚ)
  | resize (h w : ℕ)
  | toTensor
  deriving Repr, DecidableEq

/-- Whether a transform draws randomness (augmentation) or is
deterministic. -/
def Transform.isRandomized : Transform → Bool
  | .randomResizedCrop _ _ => true
  | .randomHorizontalFlip _ => true
  | .randomGrayscale _ => true
  | .randomApplyColorJitter _ _ _ _ => true
  | .resize _ _ => false
  | .toTensor => false

/-- Transform pipeline `train_transform` (lines 120-126). -/
def train_transform : List Transform :=
  [.randomResizedCrop 224 224,
   .randomHorizontalFlip (1/10),
   .randomGrayscale (1/10),
   .randomApplyColorJitter (1/2) (1/2) (1/2) (1/2),
   .toTensor]

/-- Transform pipeline `test_transform` (lines 128-131). -/
def test_transform : List Transform :=
  [.resize 224 224, .toTensor]

/-- An `ImageFolder` dataset wrapped in a `DataLoader`, as configured by
lines 133-140: the folder it reads, the transform applied, the batch size
and the shuffle flag. -/
structure ImageFolderLoader where
  root : String
  transform : List Transform
  batch_size : ℕ
  shuffle : Bool
  deriving Repr, DecidableEq

/-- Path join `os.path.join(data, sub)` for the relative component names used here. -/
def os_path_join (data sub : String) : String :=
  data ++ "/" ++ sub

/-- Factory `create_data_loaders(data, batch_size)` (lines 115-142), returning the
train, test and validation loaders in order.  Line 133 builds the training
dataset from `test_data_path`. -/
def create_data_loaders (data : String) (batch_size : ℕ) :
    ImageFolderLoader × ImageFolderLoader × ImageFolderLoader :=
  let test_data_path := os_path_join data "test"
  let validation_data_path := os_path_join data "valid"
  (⟨test_data_path, train_transform, batch_size, true⟩,
   ⟨test_data_path, test_transform, batch_size, true⟩,
   ⟨validation_data_path, test_transform, batch_size, true⟩)

/-- Path `train_data_path` (line 116), computed but never used to build a
dataset. -/
def train_data_path (data : String) : String :=
  os_path_join data "train"

/-! ### Classifier head (`net`, lines 99-113) -/

/-- A layer of the `nn.Sequential` head, with declared dimensions. -/
inductive Layer where
  | linear (inFeatures outFeatures : ℕ)
  | relu
  deriving Repr, DecidableEq

/-- Value of `model.fc.in_features` for a torchvision ResNet-50 (line 105). -/
def resnet50_fc_in_features : ℕ := 2048

/-- The replaced head `model.fc` (lines 107-112), with the layer dimensions
exactly as declared in the source. -/
def fc_head : List Layer :=
  [.linear resnet50_fc_in_features 128,
   .relu,
   .linear 128 32,
   .relu,
   .linear 128 5]

/-- Declared input dimension of a layer (`none` for dimensionless layers). -/
def Layer.inDim : Layer → Option ℕ
  | .linear i _ => some i
  | .relu => none

/-- Declared output dimension of a layer (`none` for dimensionless
layers, which pass their input through unchanged in width). -/
def Layer.outDim : Layer → Option ℕ
  | .linear _ o => some o
  | .relu => none

/-! ### Argument parsing (`__main__`, lines 172-180) -/

/-- How an `argparse` default is written in the source: absent, a literal
string, or `os.environ[key]`. -/
inductive ArgDefault where
  | absent
  | literal (s : String)
  | envLookup (key : String)
  deriving Repr, DecidableEq

/-- Whether the default is written as a literal string. -/
def ArgDefault.isLiteral : ArgDefault → Bool
  | .literal _ => true
  | _ => false

/-- Default of `parser.add_argument('--output_dir', type=str,
default=os.environ['TrainedModels/model.pth'])` (line 178): the default is
an environment lookup whose key is the path-like string. -/
def output_dir_default : ArgDefault :=
  .envLookup "TrainedModels/model.pth"

/-- Default of `parser.add_argument('--data', type=str,
default=os.environ['dogImages'])` (line 177). -/
def data_default : ArgDefault :=
  .envLookup "dogImages"

/-- Evaluating a default expression under an environment (Python evaluates
`os.environ[key]` eagerly when `add_argument` runs; a missing key raises
`KeyError`). -/
def evalDefault (env : String → Option String) :
    ArgDefault → Except PyError (Option String)
  | .absent => .ok none
  | .literal s => .ok (some s)
  | .envLookup k =>
    match env k with
    | some v => .ok (some v)
    | none => .error (.keyError k)

/-- The value `--output_dir` takes when the flag is omitted on the command
line: the evaluated default. -/
def omitted_output_dir (env : String → Option String) :
    Except PyError (Option String) :=
  evalDefault env output_dir_default

/-! ### Helper lemmas -/

/-- Folding an addition of mapped values equals the initial value plus the
sum of the mapped list. -/
theorem foldl_add_map {M : Type} [AddCommMonoid M] (g : Batch → M) :
    ∀ (l : List Batch) (init : M),
      l.foldl (fun acc b => acc + g b) init = init + (l.map g).sum
  | [], init => by simp
  | b :: l, init => by
    simp only [List.foldl_cons, List.map_cons, List.sum_cons,
      foldl_add_map g l (init + g b)]
    rw [add_assoc]

/-- `running_loss` is the sum of per-batch `loss × size`. -/
theorem running_loss_eq_sum (feeder : List Batch) :
    running_loss feeder = (feeder.map (fun b => b.loss * (b.size : ℚ))).sum := by
  simpa using foldl_add_map (fun b => b.loss * (b.size : ℚ)) feeder 0

/-- `running_corrects` is the sum of per-batch correct counts. -/
theorem running_corrects_eq_sum (feeder : List Batch) :
    running_corrects feeder = (feeder.map Batch.corrects).sum := by
  simpa using foldl_add_map Batch.corrects feeder 0

/-- `validUpdate` never changes `loss_counter` downward and raises it by at
most one. -/
theorem validUpdate_counter (s : LoopState) (vloss : ℚ) :
    (validUpdate s vloss).loss_counter =
      s.loss_counter + (if vloss < s.best_loss then 0 else 1) := by
  unfold validUpdate
  split <;> simp

/-- Across any run of the epoch loop, `loss_counter` is non-decreasing and
grows by at most the number of epochs executed. -/
theorem trainLoopAux_counter_bounds (data : ℕ → EpochData) :
    ∀ (r epoch : ℕ) (s : LoopState),
      s.loss_counter ≤ (trainLoopAux data epoch r s).1.loss_counter ∧
      (trainLoopAux data epoch r s).1.loss_counter ≤
        s.loss_counter + (trainLoopAux data epoch r s).2
  | 0, epoch, s => by simp [trainLoopAux]
  | r + 1, epoch, s => by
    have ih := trainLoopAux_counter_bounds data r (epoch + 1)
      (validUpdate s (epoch_loss (data epoch).validBatches))
    have hle : s.loss_counter ≤
        (validUpdate s (epoch_loss (data epoch).validBatches)).loss_counter ∧
        (validUpdate s (epoch_loss (data epoch).validBatches)).loss_counter ≤
          s.loss_counter + 1 := by
      rw [validUpdate_counter]
      split <;> omega
    simp only [trainLoopAux]
    split
    · constructor <;> simp <;> omega
    · split
      · constructor <;> simp <;> omega
      · constructor <;> simp <;> omega

/-! ### Claim theorems -/

/-- The two training batches of the C4 scenario: losses 1.0 and 3.0, batch
size 4. -/
def c4_feeder : List Batch :=
  [⟨1, 4, 0⟩, ⟨3, 4, 0⟩]

/-- C4: in every phase, `epoch_loss` is the sum of per-batch
`loss × batch size` divided by the number of batches (not the number of
samples), and `epoch_acc` is the accumulated correct count divided by the
same batch count; on the scenario of 2 batches with losses 1.0 and 3.0 and
batch size 4, `running_loss = 16.0` and `epoch_loss = 8.0`, which differs
from the per-sample quotient 16/8. -/
theorem epoch_metrics_divide_by_batch_count :
    (∀ feeder : List Batch,
      epoch_loss feeder =
        (feeder.map (fun b => b.loss * (b.size : ℚ))).sum / (feeder.length : ℚ) ∧
      epoch_acc feeder =
        ((feeder.map Batch.corrects).sum : ℚ) / (feeder.length : ℚ)) ∧
    running_loss c4_feeder = 16 ∧
    epoch_loss c4_feeder = 8 ∧
    (num_samples c4_feeder = 8 ∧
      epoch_loss c4_feeder ≠ running_loss c4_feeder / (num_samples c4_feeder : ℚ)) := by
  refine ⟨fun feeder => ⟨?_, ?_⟩, ?_, ?_, ?_, ?_⟩
  · rw [epoch_loss, running_loss_eq_sum]
  · rw [epoch_acc, running_corrects_eq_sum]
  · norm_num [running_loss, c4_feeder]
  · norm_num [epoch_loss, running_loss, c4_feeder]
  · norm_num [num_samples, c4_feeder]
  · norm_num [epoch_loss, running_loss, num_samples, c4_feeder]

/-- The C2 scenario feeder: 3 batches with losses 0.1, 0.2, 0.3, each of
size 8 with every prediction equal to its label, so 8 correct per batch. -/
def c2_feeder : List Batch :=
  [⟨1/10, 8, 8⟩, ⟨2/10, 8, 8⟩, ⟨3/10, 8, 8⟩]

/-- C2 counterexample: on the scenario feeder, `test` reports
`total_acc = 24/3 = 8`, not `1.0`, so the claimed pair of outputs is false
as stated. -/
theorem test_total_acc_not_one :
    (test c2_feeder).2 = 8 ∧
    ¬ ((test c2_feeder).1 = (1/10 + 2/10 + 3/10) * 8 / 3 ∧
       (test c2_feeder).2 = 1) := by
  have h2 : (test c2_feeder).2 = 8 := by
    norm_num [test, running_corrects, c2_feeder]
  exact ⟨h2, fun hc => by rw [h2] at hc; norm_num at hc⟩

/-- C2 amended: on the scenario feeder, `test` reports
`total_loss = (0.1 + 0.2 + 0.3) * 8 / 3` (= 1.6) and
`total_acc = (8 + 8 + 8) / 3 = 8`, the correct count divided by the batch
count, not the fraction 1.0. -/
theorem test_metrics_on_scenario :
    (test c2_feeder).1 = (1/10 + 2/10 + 3/10) * 8 / 3 ∧
    (test c2_feeder).1 = 8/5 ∧
    (test c2_feeder).2 = (8 + 8 + 8 : ℚ) / 3 ∧
    (test c2_feeder).2 = 8 := by
  refine ⟨?_, ?_, ?_, ?_⟩ <;>
    norm_num [test, running_loss, running_corrects, c2_feeder]

/-- C1: with `max_epochs ≥ 1` the epoch loop executes exactly one epoch
(hence at most 2): after epoch 0's validation phase either the
`loss_counter==1` break or the `epoch==0` break fires; and independently,
whenever the stall counter reaches 1 after an epoch's validation update,
the loop breaks immediately, no matter how many iterations remain. -/
theorem train_loop_executes_exactly_one_epoch (epochs : ℕ)
    (data : ℕ → EpochData) (h : 1 ≤ epochs) :
    (trainLoop epochs data).2 = 1 ∧ (trainLoop epochs data).2 ≤ 2 ∧
    ∀ (epoch r : ℕ) (s : LoopState),
      (validUpdate s (epoch_loss (data epoch).validBatches)).loss_counter = 1 →
      (trainLoopAux data epoch (r + 1) s).2 = 1 := by
  obtain ⟨k, rfl⟩ := Nat.exists_eq_add_of_le h
  have h1 : (trainLoopAux data 0 (k + 1) initState).2 = 1 := by
    simp only [trainLoopAux]
    split
    · rfl
    · simp
  have h0 : (trainLoop (1 + k) data).2 = 1 := by
    rw [trainLoop, Nat.add_comm 1 k]
    exact h1
  refine ⟨h0, by omega, fun epoch r s hc => ?_⟩
  simp only [trainLoopAux]
  rw [if_pos hc]

/-- Per-epoch data for the C1 witness: every epoch sees one training batch
and one validation batch of loss 1, size 1. -/
def c1_data : ℕ → EpochData :=
  fun _ => ⟨[⟨1, 1, 0⟩], [⟨1, 1, 0⟩]⟩

/-- C1 witness at `epochs = 3`. -/
theorem train_loop_executes_exactly_one_epoch_at_three :
    1 ≤ 3 ∧
    ((trainLoop 3 c1_data).2 = 1 ∧ (trainLoop 3 c1_data).2 ≤ 2 ∧
      ∀ (epoch r : ℕ) (s : LoopState),
        (validUpdate s (epoch_loss (c1_data epoch).validBatches)).loss_counter = 1 →
        (trainLoopAux c1_data epoch (r + 1) s).2 = 1) :=
  ⟨by norm_num, train_loop_executes_exactly_one_epoch 3 c1_data (by norm_num)⟩

/-- C3: the stall counter starts at 0; a validation update adds exactly 1
when the epoch's validation loss is not strictly below the best loss so far
and adds 0 otherwise; and over any run of the epoch loop the counter is
non-decreasing and grows by at most 1 per executed epoch. -/
theorem stall_counter_invariant :
    initState.loss_counter = 0 ∧
    (∀ (s : LoopState) (vloss : ℚ),
      (validUpdate s vloss).loss_counter =
        s.loss_counter + (if vloss < s.best_loss then 0 else 1)) ∧
    (∀ (data : ℕ → EpochData) (r epoch : ℕ) (s : LoopState),
      s.loss_counter ≤ (trainLoopAux data epoch r s).1.loss_counter ∧
      (trainLoopAux data epoch r s).1.loss_counter ≤
        s.loss_counter + (trainLoopAux data epoch r s).2) :=
  ⟨rfl, validUpdate_counter,
   fun data r epoch s => trainLoopAux_counter_bounds data r epoch s⟩

/-- C6: `best_loss` starts at the sentinel `1e6`; if epoch 0's validation
epoch loss is strictly below the sentinel, the run ends with `best_loss`
equal to that loss and the stall counter still 0, and the loop still
terminates after epoch 0 (exactly one epoch executes). -/
theorem sentinel_update_on_first_epoch (epochs : ℕ) (data : ℕ → EpochData)
    (h1 : 1 ≤ epochs) (h2 : epoch_loss (data 0).validBatches < 1e6) :
    initState.best_loss = 1e6 ∧
    (trainLoop epochs data).1.best_loss = epoch_loss (data 0).validBatches ∧
    (trainLoop epochs data).1.loss_counter = 0 ∧
    (trainLoop epochs data).2 = 1 := by
  obtain ⟨k, rfl⟩ := Nat.exists_eq_add_of_le h1
  have hvu : validUpdate initState (epoch_loss (data 0).validBatches) =
      ⟨epoch_loss (data 0).validBatches, 0⟩ := by
    simp only [validUpdate, initState]
    rw [if_pos h2]
  have key : trainLoopAux data 0 (k + 1) initState =
      (⟨epoch_loss (data 0).validBatches, 0⟩, 1) := by
    simp only [trainLoopAux, hvu]
    norm_num
  have hloop : trainLoop (1 + k) data =
      (⟨epoch_loss (data 0).validBatches, 0⟩, 1) := by
    rw [trainLoop, Nat.add_comm 1 k]
    exact key
  rw [hloop]
  exact ⟨rfl, rfl, rfl, rfl⟩

/-- Per-epoch data for the C6 witness: one validation batch of loss 1,
size 1, so the validation epoch loss is 1 < 1e6. -/
def c6_data : ℕ → EpochData :=
  fun _ => ⟨[], [⟨1, 1, 0⟩]⟩

/-- C6 witness at `epochs = 5`. -/
theorem sentinel_update_on_first_epoch_at_five :
    (1 ≤ 5 ∧ epoch_loss (c6_data 0).validBatches < 1e6) ∧
    (initState.best_loss = 1e6 ∧
      (trainLoop 5 c6_data).1.best_loss = epoch_loss (c6_data 0).validBatches ∧
      (trainLoop 5 c6_data).1.loss_counter = 0 ∧
      (trainLoop 5 c6_data).2 = 1) :=
  ⟨⟨by norm_num, by norm_num [epoch_loss, running_loss, c6_data]⟩,
   sentinel_update_on_first_epoch 5 c6_data (by norm_num)
     (by norm_num [epoch_loss, running_loss, c6_data])⟩

/-- C7: the training feeder is built from the test folder's path
(`root/test`), not from `root/train`, while the randomized augmentation
pipeline is attached only to that training feeder and the deterministic
resize-only pipeline to the test and validation feeders. -/
theorem train_loader_built_from_test_path (data : String) (batch_size : ℕ) :
    (create_data_loaders data batch_size).1.root = os_path_join data "test" ∧
    (create_data_loaders data batch_size).1.root ≠ train_data_path data ∧
    (create_data_loaders data batch_size).1.transform = train_transform ∧
    (create_data_loaders data batch_size).2.1.transform = test_transform ∧
    (create_data_loaders data batch_size).2.2.transform = test_transform ∧
    train_transform.any Transform.isRandomized = true ∧
    test_transform.all (fun t => !t.isRandomized) = true := by
  refine ⟨rfl, ?_, rfl, rfl, rfl, by decide, by decide⟩
  intro hroot
  have hroot' : os_path_join data "test" = os_path_join data "train" := hroot
  have hlen := congrArg String.length hroot'
  simp [os_path_join, String.length_append] at hlen
  exact absurd hlen (by decide)

/-- C8: in the declared head `fc_head`, the third layer is the 32-unit
linear layer `Linear(128, 32)` but the final layer is declared
`Linear(128, 5)`, whose input dimension 128 does not match the 32-unit
layer's output and instead equals the first linear layer's output; no layer
of the head declares an input of 32 units, so the 32-unit output has no
declared consumer. -/
theorem fc_head_dimension_mismatch :
    fc_head[2]? = some (.linear 128 32) ∧
    fc_head[4]? = some (.linear 128 5) ∧
    (Layer.linear 128 32).outDim = some 32 ∧
    (Layer.linear 128 5).inDim = some 128 ∧
    (Layer.linear 128 5).inDim ≠ (Layer.linear 128 32).outDim ∧
    (Layer.linear 128 5).inDim = (Layer.linear resnet50_fc_in_features 128).outDim ∧
    ∀ l ∈ fc_head, l.inDim ≠ some 32 := by
  decide

/-- Environment used by the C9 counterexample: it binds the key
`TrainedModels/model.pth` that line 178 looks up. -/
def c9_env : String → Option String :=
  fun k => if k = "TrainedModels/model.pth" then some "/opt/ml/model.pth"
           else none

/-- C9 counterexample: the `--output_dir` default is the environment lookup
`os.environ['TrainedModels/model.pth']`, not a literal string, and under an
environment binding that key, omitting the flag does yield an
environment-derived default. -/
theorem output_dir_default_not_literal :
    output_dir_default.isLiteral = false ∧
    output_dir_default = ArgDefault.envLookup "TrainedModels/model.pth" ∧
    omitted_output_dir c9_env = .ok (some "/opt/ml/model.pth") :=
  ⟨rfl, rfl, rfl⟩

/-- C9 amended: the `--output_dir` default is written as the environment
lookup `os.environ['TrainedModels/model.pth']` with a literal path-like
key, not as a literal default value; whenever that environment variable is
unset, evaluating the default raises `KeyError` (at parser construction),
so no literal fallback exists. -/
theorem output_dir_default_env_key (env : String → Option String)
    (henv : env "TrainedModels/model.pth" = none) :
    output_dir_default = ArgDefault.envLookup "TrainedModels/model.pth" ∧
    output_dir_default.isLiteral = false ∧
    omitted_output_dir env = .error (.keyError "TrainedModels/model.pth") := by
  refine ⟨rfl, rfl, ?_⟩
  simp [omitted_output_dir, evalDefault, output_dir_default, henv]

/-- C9 witness at the empty environment. -/
theorem output_dir_default_env_key_empty_env :
    ((fun _ : String => (none : Option String)) "TrainedModels/model.pth"
        = none) ∧
    (output_dir_default = ArgDefault.envLookup "TrainedModels/model.pth" ∧
      output_dir_default.isLiteral = false ∧
      omitted_output_dir (fun _ => none) =
        .error (.keyError "TrainedModels/model.pth")) :=
  ⟨rfl, output_dir_default_env_key (fun _ => none) rfl⟩

/-- C10: the name `Report` is bound nowhere in the scope of `train`'s body
(neither defined in the file nor imported), so every call to `train` stops
with `NameError` at line 27, before any epoch or batch is processed and
before any training or validation phase runs. -/
theorem train_always_raises_name_error :
    train_scope.contains "Report" = false ∧
    ∀ (epochs : ℕ) (data : ℕ → EpochData),
      train epochs data = .error (.nameError "Report") :=
  ⟨rfl, fun _ _ => rfl⟩

end Ec2Train
